import Mathlib

/-!
Verification of the AdGuard DNS tool layer (`src/mastra/tools/adguard-tools.ts`):
the authenticated transport with refresh-on-401, the query-log fetcher, and the
whitelist mutator. Network responses are nondeterministic inputs: each embedded
operation takes the responses the remote would return as explicit arguments and
returns, alongside its result, a log of the requests it issued, so frame
properties (which requests were sent, with which headers and bodies) are
statable.
-/

namespace AdGuard

/-- An HTTP response as seen through `fetch`: status code and status text.
Bodies are modelled separately, already parsed, on the operations that read
them. -/
structure Response where
  status : Nat
  statusText : String
deriving DecidableEq

/-- `Response.ok` of the fetch API: status in the range 200..299. -/
def okStatus (status : Nat) : Bool := 200 ≤ status && status ≤ 299

/-- `response.ok` for our `Response`. -/
def Response.okb (r : Response) : Bool := okStatus r.status

/-- Headers as a finite map from header name to value, modelling a JS object:
`none` means the key is absent. -/
def Headers : Type := String → Option String

/-- The empty header object. -/
def hempty : Headers := fun _ => none

/-- Setting one key of a header object (JS property assignment / a later key
in an object literal overriding an earlier one). -/
def hset (h : Headers) (k v : String) : Headers :=
  fun q => if q = k then some v else h q

/-- JS object spread `{...base, ...extra}`: keys of `extra` win. -/
def hmerge (base extra : Headers) : Headers :=
  fun q =>
    match extra q with
    | some v => some v
    | none => base q

/-- The body of the settings PUT issued by the whitelist mutator
(`{user_rules_settings: {enabled, rules}}`). -/
structure PutBody where
  enabled : Bool
  rules : List String
deriving DecidableEq

/-- The caller-controlled part of a request (`RequestInit`): method, headers,
optional structured body. -/
structure RequestOptions where
  method : String
  headers : Headers
  body : Option PutBody

/-- `RequestInit = {}`: the defaults used when `callAdGuardAPI` is called with
one argument (a GET with no extra headers and no body). -/
def defaultOptions : RequestOptions := ⟨"GET", hempty, none⟩

/-- A request as issued to `fetch`: url plus the options after header
injection. -/
structure Request where
  url : String
  method : String
  headers : Headers
  body : Option PutBody

/-- The errors the tool layer can throw, one constructor per `throw new Error`
site in the source. -/
inductive AdGuardError where
  | noAccessToken
  | noRefreshToken
  | noServerId
  | authRefresh (status : Nat) (statusText : String)
  | queryLogFetch (status : Nat) (statusText : String)
  | dnsServerGet (status : Nat) (statusText : String)
  | settingsPut (status : Nat) (statusText : String)
deriving DecidableEq

/-- Parsed body of the token endpoint (`TokenResponse` in the source). -/
structure TokenResponse where
  access_token : String
  refresh_token : Option String
deriving DecidableEq

/-- The response of the refresh exchange: HTTP status plus the parsed body
(consulted only on success). -/
structure TokenHttpResponse where
  status : Nat
  statusText : String
  body : TokenResponse
deriving DecidableEq

/-- `refreshAccessToken`: fails fast when the refresh-token environment
variable is unset; otherwise the exchange's response decides: non-ok status
throws the auth-refresh error carrying that status, ok status yields the new
access token (which the caller stores as the current token). -/
def refreshAccessToken (refreshTokenEnv : Option String)
    (resp : TokenHttpResponse) : Except AdGuardError String :=
  match refreshTokenEnv with
  | none => .error .noRefreshToken
  | some _ =>
    if okStatus resp.status then .ok resp.body.access_token
    else .error (.authRefresh resp.status resp.statusText)

/-- Number of refresh exchanges actually sent to the token endpoint when
`refreshAccessToken` runs: zero when the refresh token is missing (it throws
before fetching), one otherwise. -/
def refreshExchangeCount (refreshTokenEnv : Option String) : Nat :=
  match refreshTokenEnv with
  | none => 0
  | some _ => 1

/-- Everything observable about one `callAdGuardAPI` invocation: its
result (returned response or thrown error), the access token held by the
credential store afterwards, the requests issued to `url` in order, and how
many refresh exchanges were sent. -/
structure CallOutcome where
  result : Except AdGuardError Response
  token : String
  requests : List Request
  refreshCalls : Nat

/-- `callAdGuardAPI token refreshTokenEnv url opts r1 refreshResp r2`:
the authenticated transport. `token` is the current access token,
`r1` the response the remote gives the first attempt, `refreshResp` the
response of the token endpoint (consulted only on a 401), and `r2` the
response to the retried request (consulted only after a successful refresh).
Headers are built as `{'Content-Type': 'application/json', ...opts.headers,
'Authorization': 'Bearer ' ++ token}`; on a 401 the Authorization header is
rebuilt with the refreshed token and the request is reissued once. -/
def callAdGuardAPI (token : String) (refreshTokenEnv : Option String)
    (url : String) (opts : RequestOptions)
    (r1 : Response) (refreshResp : TokenHttpResponse) (r2 : Response) :
    CallOutcome :=
  if token = "" then ⟨.error .noAccessToken, token, [], 0⟩
  else
    let hdrs :=
      hset (hmerge (hset hempty "Content-Type" "application/json") opts.headers)
        "Authorization" ("Bearer " ++ token)
    let req1 : Request := ⟨url, opts.method, hdrs, opts.body⟩
    if r1.status = 401 then
      match refreshAccessToken refreshTokenEnv refreshResp with
      | .error e =>
        ⟨.error e, token, [req1], refreshExchangeCount refreshTokenEnv⟩
      | .ok newToken =>
        let hdrs2 := hset hdrs "Authorization" ("Bearer " ++ newToken)
        let req2 : Request := ⟨url, opts.method, hdrs2, opts.body⟩
        ⟨.ok r2, newToken, [req1, req2], refreshExchangeCount refreshTokenEnv⟩
    else ⟨.ok r1, token, [req1], 0⟩

/-! ## Query log fetcher -/

/-- `filtering_info` of a query-log item (all fields optional in the source
interface). -/
structure FilteringInfo where
  filtering_status : Option String
  filter_rule : Option String
  filter_id : Option String
deriving DecidableEq

/-- `QueryLogItem` of the source, one row of the provider's query log. -/
structure QueryLogItem where
  domain : String
  time_iso : String
  time_millis : Nat
  filtering_info : Option FilteringInfo
  device_id : Option String
  dns_request_type : Option String
deriving DecidableEq

/-- `item.filtering_info?.filtering_status`: optional chaining through the
two optional layers. -/
def itemStatus (item : QueryLogItem) : Option String :=
  item.filtering_info.bind (fun fi => fi.filtering_status)

/-- The predicate of the source's `.filter`: the filtering status is
`REQUEST_BLOCKED` or `RESPONSE_BLOCKED`. -/
def isBlockedItem (item : QueryLogItem) : Bool :=
  itemStatus item == some "REQUEST_BLOCKED" ||
    itemStatus item == some "RESPONSE_BLOCKED"

/-- One element of `blocked_domains` in the tool output. -/
structure BlockedDomainSummary where
  domain : String
  blocked_at : String
  filter_rule : Option String
  filter_id : Option String
deriving DecidableEq

/-- The source's `.map` projection of a query-log item. -/
def projectItem (item : QueryLogItem) : BlockedDomainSummary :=
  ⟨item.domain, item.time_iso,
    item.filtering_info.bind (fun fi => fi.filter_rule),
    item.filtering_info.bind (fun fi => fi.filter_id)⟩

/-- The output of `getQueryLogTool.execute`. -/
structure QueryLogOutput where
  blocked_domains : List BlockedDomainSummary
  total_queries : Nat
deriving DecidableEq

/-- The body of `getQueryLogTool.execute` after the transport returned
`resp` with parsed item list `items`: a non-ok response throws; otherwise the
items are filtered to blocked ones, projected, and returned together with the
length of the whole page. -/
def getQueryLogExecute (resp : Response) (items : List QueryLogItem) :
    Except AdGuardError QueryLogOutput :=
  if resp.okb then
    .ok ⟨(items.filter isBlockedItem).map projectItem, items.length⟩
  else .error (.queryLogFetch resp.status resp.statusText)

/-- The spec's description of the blocked-domain list, written independently
of the implementation pipeline: walk the page in order and keep exactly the
entries whose filtering status is `REQUEST_BLOCKED` or `RESPONSE_BLOCKED`,
each projected to `{domain, blocked_at, filter_rule?, filter_id?}`. -/
def specBlockedDomains : List QueryLogItem → List BlockedDomainSummary
  | [] => []
  | item :: rest =>
    if itemStatus item = some "REQUEST_BLOCKED" ∨
        itemStatus item = some "RESPONSE_BLOCKED" then
      ⟨item.domain, item.time_iso,
        item.filtering_info.bind (fun fi => fi.filter_rule),
        item.filtering_info.bind (fun fi => fi.filter_id)⟩ ::
        specBlockedDomains rest
    else specBlockedDomains rest

/-- A concrete query-log page with mixed statuses for the C6 witness. -/
def samplePage : List QueryLogItem :=
  [⟨"nflxvideo.net", "2024-01-01T00:00:00Z", 1,
      some ⟨some "REQUEST_BLOCKED", some "||nflxvideo.net^", some "15"⟩,
      none, none⟩,
    ⟨"allowed.com", "2024-01-01T00:00:01Z", 2,
      some ⟨some "NONE", none, none⟩, none, none⟩,
    ⟨"cdn.example", "2024-01-01T00:00:02Z", 3,
      some ⟨some "RESPONSE_BLOCKED", none, none⟩, none, none⟩,
    ⟨"plain.example", "2024-01-01T00:00:03Z", 4, none, none, none⟩]

/-! ## Whitelist mutator -/

/-- `user_rules_settings` of the DNS server settings. -/
structure UserRulesSettings where
  enabled : Bool
  rules : List String
  rules_count : Nat
deriving DecidableEq

/-- `DNSServerSettings` of the source (only `user_rules_settings` is used). -/
structure DNSServerSettings where
  user_rules_settings : UserRulesSettings
deriving DecidableEq

/-- The canonical whitelist rule for a domain: `@@||domain^`. -/
def whitelistRule (domain : String) : String := "@@||" ++ domain ++ "^"

/-- The partition loop of `unblockDomainTool.execute`: walk the input domains
in order; a domain whose canonical rule is already a member of `rules` goes
to the second component (`alreadyWhitelisted`, as the domain), any other
domain contributes its rule to the first component (`newRules`). -/
def collectRules (rules : List String) : List String → List String × List String
  | [] => ([], [])
  | domain :: rest =>
    let wr := whitelistRule domain
    let p := collectRules rules rest
    if rules.contains wr then (p.1, domain :: p.2) else (wr :: p.1, p.2)

/-- The output record of `unblockDomainTool.execute`. -/
structure UnblockOutput where
  success : Bool
  message : String
  rules_added : List String
  already_whitelisted : List String
deriving DecidableEq

/-- Everything observable about one `unblockDomainTool.execute` invocation:
its result, whether the settings GET was issued, and the body of the settings
PUT when one was issued (`none` means no write request was sent). -/
structure UnblockOutcome where
  result : Except AdGuardError UnblockOutput
  getIssued : Bool
  putRequest : Option PutBody

/-- `unblockDomainTool.execute`: `serverId` is the environment's DNS server
id, `getResp`/`settings` the response and parsed body of the configuration
read, `putResp` the response the remote gives the settings PUT (consulted
only when a write is issued). Mirrors the source: fail fast on a missing
server id; read the settings; partition the domains; short-circuit without a
write when nothing is new; otherwise append the new rules and PUT the
updated list with the enabled flag echoed unchanged. -/
def unblockExecute (serverId : Option String) (domains : List String)
    (getResp : Response) (dnsServer : DNSServerSettings) (putResp : Response) :
    UnblockOutcome :=
  match serverId with
  | none => ⟨.error .noServerId, false, none⟩
  | some _ =>
    if getResp.okb then
      let settings := dnsServer.user_rules_settings
      let p := collectRules settings.rules domains
      let newRules := p.1
      let alreadyWhitelisted := p.2
      if newRules.length = 0 then
        ⟨.ok ⟨true,
            "All " ++ toString domains.length ++
              " domain(s) are already whitelisted",
            [], alreadyWhitelisted⟩,
          true, none⟩
      else
        let updatedRules := settings.rules ++ newRules
        let putBody : PutBody := ⟨settings.enabled, updatedRules⟩
        if putResp.okb then
          let newDomains :=
            domains.filter (fun d => !(alreadyWhitelisted.contains d))
          ⟨.ok ⟨true,
              "Successfully added " ++ toString newRules.length ++
                " whitelist rule(s) for: " ++ String.intercalate ", " newDomains,
              newRules, alreadyWhitelisted⟩,
            true, some putBody⟩
        else
          ⟨.error (.settingsPut putResp.status putResp.statusText),
            true, some putBody⟩
    else ⟨.error (.dnsServerGet getResp.status getResp.statusText), true, none⟩

/-- The provider-side settings after one `unblockExecute` call: a PUT
replaces the rule list and enabled flag with the body it carried (the
provider recomputes `rules_count`), no PUT leaves the settings unchanged. -/
def settingsAfter (dnsServer : DNSServerSettings) (o : UnblockOutcome) :
    DNSServerSettings :=
  match o.putRequest with
  | some pb => ⟨⟨pb.enabled, pb.rules, pb.rules.length⟩⟩
  | none => dnsServer

/-! ## Helper lemmas -/

/-- The partition loop, characterized by filters: the first component is the
canonical rule of every input domain whose rule is absent from `rules`, the
second the input domains whose rule is present, both in input order. -/
theorem collectRules_eq (rules : List String) (domains : List String) :
    collectRules rules domains =
      ((domains.filter
          (fun d => !(rules.contains (whitelistRule d)))).map whitelistRule,
        domains.filter (fun d => rules.contains (whitelistRule d))) := by
  induction domains with
  | nil => rfl
  | cons d rest ih =>
    by_cases h : whitelistRule d ∈ rules
    · simp [collectRules, ih, h, List.filter_cons]
    · simp [collectRules, ih, h, List.filter_cons]

/-- The canonical rule map is injective: `@@||d^` determines `d`. -/
theorem whitelistRule_injective : Function.Injective whitelistRule := by
  intro a b h
  have hd : ("@@||".data ++ a.data) ++ "^".data =
      ("@@||".data ++ b.data) ++ "^".data := by
    have := congrArg String.data h
    simpa [whitelistRule, String.data_append, List.append_assoc] using this
  have h2 : "@@||".data ++ a.data = "@@||".data ++ b.data :=
    List.append_cancel_right hd
  exact String.ext (List.append_cancel_left h2)

/-- When every input domain's canonical rule is already among the rules that
were read, the mutator short-circuits: success, empty `rules_added`, all
input domains reported back, and no write issued. Shared workhorse for the
short-circuit and idempotence claims. -/
theorem unblock_all_present (sid : String) (domains : List String)
    (dnsServer : DNSServerSettings) (getResp putResp : Response)
    (hg : getResp.okb = true)
    (hall : ∀ d ∈ domains,
      dnsServer.user_rules_settings.rules.contains (whitelistRule d) = true) :
    (unblockExecute (some sid) domains getResp dnsServer putResp).result =
        .ok ⟨true,
          "All " ++ toString domains.length ++
            " domain(s) are already whitelisted",
          [], domains⟩ ∧
      (unblockExecute (some sid) domains getResp dnsServer putResp).putRequest
        = none := by
  have hmem : ∀ d ∈ domains,
      whitelistRule d ∈ dnsServer.user_rules_settings.rules :=
    fun d hd => List.elem_iff.mp (hall d hd)
  have hfilter :
      domains.filter
          (fun d => dnsServer.user_rules_settings.rules.contains
            (whitelistRule d)) = domains :=
    List.filter_eq_self.mpr hall
  have hnone :
      domains.filter
          (fun d => !(dnsServer.user_rules_settings.rules.contains
            (whitelistRule d))) = [] := by
    rw [List.filter_eq_nil_iff]
    intro d hd
    simp [hmem d hd]
  have h0 :
      ((domains.filter
          (fun d => !(dnsServer.user_rules_settings.rules.contains
            (whitelistRule d)))).map whitelistRule).length = 0 := by
    rw [hnone]
    rfl
  simp only [unblockExecute, hg, if_true, collectRules_eq]
  rw [if_pos h0, hfilter]
  exact ⟨rfl, rfl⟩

/-- The implementation's filter-map pipeline computes the spec's recursive
description of the blocked-domain list. -/
theorem filter_map_eq_specBlockedDomains (items : List QueryLogItem) :
    (items.filter isBlockedItem).map projectItem = specBlockedDomains items := by
  induction items with
  | nil => rfl
  | cons item rest ih =>
    by_cases h : itemStatus item = some "REQUEST_BLOCKED" ∨
        itemStatus item = some "RESPONSE_BLOCKED"
    · have hb : isBlockedItem item = true := by
        rcases h with h | h <;> simp [isBlockedItem, h]
      simp [specBlockedDomains, h, List.filter_cons, hb, ih, projectItem]
    · have hb : isBlockedItem item = false := by
        push_neg at h
        simp [isBlockedItem, h.1, h.2]
      simp [specBlockedDomains, h, List.filter_cons, hb, ih]

/-- The Authorization entry of the headers built by the transport is the
bearer token it injected. -/
theorem builtHeaders_auth (H : Headers) (t : String) :
    (hset (hmerge (hset hempty "Content-Type" "application/json") H)
        "Authorization" ("Bearer " ++ t)) "Authorization" =
      some ("Bearer " ++ t) := by
  simp [hset]

/-- Every non-Authorization header the caller supplied survives the
transport's header construction unchanged. -/
theorem builtHeaders_keep (H : Headers) (t k v : String)
    (hk : k ≠ "Authorization") (hv : H k = some v) :
    (hset (hmerge (hset hempty "Content-Type" "application/json") H)
        "Authorization" ("Bearer " ++ t)) k = some v := by
  simp [hset, hmerge, hk, hv]

/-! ## Claim theorems: authenticated transport -/

/-- C2: with a nonempty current token and a refresh token configured, a first
response of status 401 followed by a successful refresh makes the transport
retry exactly once — two requests to the url, the second carrying
`Authorization: Bearer <new token>` and the caller's method and body — return
the second response as-is, and leave the refreshed token in the credential
store; a first response of any status other than 401 is returned immediately,
with a single request, no refresh exchange, and the token unchanged. -/
theorem transport_refresh_retry (token rt url : String) (opts : RequestOptions)
    (r1 : Response) (refreshResp : TokenHttpResponse) (r2 : Response)
    (htok : token ≠ "") :
    (r1.status = 401 → okStatus refreshResp.status = true →
      (callAdGuardAPI token (some rt) url opts r1 refreshResp r2).result =
          .ok r2 ∧
        (callAdGuardAPI token (some rt) url opts r1 refreshResp r2).token =
          refreshResp.body.access_token ∧
        (callAdGuardAPI token (some rt) url opts r1 refreshResp r2).requests.map
            Request.url = [url, url] ∧
        (callAdGuardAPI token (some rt) url opts r1 refreshResp r2).requests.map
            Request.method = [opts.method, opts.method] ∧
        (callAdGuardAPI token (some rt) url opts r1 refreshResp r2).requests.map
            Request.body = [opts.body, opts.body] ∧
        (callAdGuardAPI token (some rt) url opts r1 refreshResp r2).requests.map
            (fun q => q.headers "Authorization") =
          [some ("Bearer " ++ token),
            some ("Bearer " ++ refreshResp.body.access_token)]) ∧
      (r1.status ≠ 401 →
        (callAdGuardAPI token (some rt) url opts r1 refreshResp r2).result =
            .ok r1 ∧
          (callAdGuardAPI token (some rt) url opts r1 refreshResp r2).token =
            token ∧
          (callAdGuardAPI token (some rt) url opts r1 refreshResp r2).refreshCalls
            = 0 ∧
          (callAdGuardAPI token (some rt) url opts r1 refreshResp r2).requests.map
            Request.url = [url]) := by
  constructor
  · intro h401 hok
    simp [callAdGuardAPI, htok, h401, refreshAccessToken, hok,
      refreshExchangeCount, hset]
  · intro h401
    simp [callAdGuardAPI, htok, h401]

/-- Witness for C2 at concrete inputs: token `"old"`, a 401 then a 200 after
a successful refresh to token `"new"`, and separately a direct 503. -/
theorem transport_refresh_retry_witness :
    ((callAdGuardAPI "old" (some "rt") "u" defaultOptions ⟨401, "Unauthorized"⟩
          ⟨200, "OK", "new", none⟩ ⟨200, "OK"⟩).result = .ok ⟨200, "OK"⟩ ∧
        (callAdGuardAPI "old" (some "rt") "u" defaultOptions ⟨401, "Unauthorized"⟩
          ⟨200, "OK", "new", none⟩ ⟨200, "OK"⟩).token = "new") ∧
      (callAdGuardAPI "old" (some "rt") "u" defaultOptions ⟨503, "Unavailable"⟩
          ⟨200, "OK", "new", none⟩ ⟨200, "OK"⟩).result = .ok ⟨503, "Unavailable"⟩ := by
  have h1 := (transport_refresh_retry "old" "rt" "u" defaultOptions
    ⟨401, "Unauthorized"⟩ ⟨200, "OK", "new", none⟩ ⟨200, "OK"⟩ (by decide)).1
    rfl (by decide)
  have h2 := (transport_refresh_retry "old" "rt" "u" defaultOptions
    ⟨503, "Unavailable"⟩ ⟨200, "OK", "new", none⟩ ⟨200, "OK"⟩ (by decide)).2
    (by decide)
  exact ⟨⟨h1.1, h1.2.1⟩, h2.1⟩

/-- C3: with a nonempty current token and a refresh token configured, a 401
followed by a refresh exchange that returns a non-success status makes the
call fail with the auth-refresh error carrying the refresh response's status
and status text, the original request is not retried (exactly one request was
issued), and the stored token is unchanged. -/
theorem transport_refresh_failure (token rt url : String)
    (opts : RequestOptions) (r1 : Response) (refreshResp : TokenHttpResponse)
    (r2 : Response) (htok : token ≠ "") (h401 : r1.status = 401)
    (hfail : okStatus refreshResp.status = false) :
    (callAdGuardAPI token (some rt) url opts r1 refreshResp r2).result =
        .error (.authRefresh refreshResp.status refreshResp.statusText) ∧
      (callAdGuardAPI token (some rt) url opts r1 refreshResp r2).token =
        token ∧
      (callAdGuardAPI token (some rt) url opts r1 refreshResp r2).requests.map
        Request.url = [url] := by
  simp [callAdGuardAPI, htok, h401, refreshAccessToken, hfail,
    refreshExchangeCount]

/-- Witness for C3: a 401 with a refresh exchange rejected as 403. -/
theorem transport_refresh_failure_witness :
    (callAdGuardAPI "old" (some "rt") "u" defaultOptions ⟨401, "Unauthorized"⟩
        ⟨403, "Forbidden", "x", none⟩ ⟨200, "OK"⟩).result =
      .error (.authRefresh 403 "Forbidden") := by
  have h := transport_refresh_failure "old" "rt" "u" defaultOptions
    ⟨401, "Unauthorized"⟩ ⟨403, "Forbidden", "x", none⟩ ⟨200, "OK"⟩
    (by decide) rfl (by decide)
  exact h.1

/-- C9: for every call with a nonempty token, the first request issued
carries `Authorization: Bearer <current token>` — the injected token wins even
if the caller supplied its own Authorization header — and every
caller-supplied header with any other name is passed through unchanged. -/
theorem transport_header_precedence (token : String)
    (refreshTokenEnv : Option String) (url : String) (opts : RequestOptions)
    (r1 : Response) (refreshResp : TokenHttpResponse) (r2 : Response)
    (htok : token ≠ "") :
    ∃ q1 rest,
      (callAdGuardAPI token refreshTokenEnv url opts r1 refreshResp r2).requests
          = q1 :: rest ∧
        q1.headers "Authorization" = some ("Bearer " ++ token) ∧
        ∀ k v, k ≠ "Authorization" → opts.headers k = some v →
          q1.headers k = some v := by
  simp only [callAdGuardAPI, if_neg htok]
  by_cases h401 : r1.status = 401
  · simp only [h401, if_pos]
    cases hre : refreshAccessToken refreshTokenEnv refreshResp with
    | error e =>
      refine ⟨_, _, rfl, ?_, ?_⟩
      · simp [hset]
      · intro k v hk hv
        simp [hset, hmerge, hk, hv]
    | ok nt =>
      refine ⟨_, _, rfl, ?_, ?_⟩
      · simp [hset]
      · intro k v hk hv
        simp [hset, hmerge, hk, hv]
  · simp only [if_neg h401]
    refine ⟨_, _, rfl, ?_, ?_⟩
    · simp [hset]
    · intro k v hk hv
      simp [hset, hmerge, hk, hv]

/-- Witness for C9: a caller supplying both its own Authorization header and
an unrelated header sees the former overridden and the latter preserved. -/
theorem transport_header_precedence_witness :
    ∃ q1 rest,
      (callAdGuardAPI "tok" (some "rt") "u"
            ⟨"GET", hset (hset hempty "Authorization" "Bearer stale") "X-Trace" "42",
              none⟩
            ⟨200, "OK"⟩ ⟨200, "OK", "new", none⟩ ⟨200, "OK"⟩).requests =
          q1 :: rest ∧
        q1.headers "Authorization" = some ("Bearer " ++ "tok") ∧
        ∀ k v, k ≠ "Authorization" →
          (hset (hset hempty "Authorization" "Bearer stale") "X-Trace" "42") k =
            some v →
          q1.headers k = some v :=
  transport_header_precedence "tok" (some "rt") "u"
    ⟨"GET", hset (hset hempty "Authorization" "Bearer stale") "X-Trace" "42", none⟩
    ⟨200, "OK"⟩ ⟨200, "OK", "new", none⟩ ⟨200, "OK"⟩ (by decide)

/-! ## Claim theorems: query log fetcher -/

/-- C6: on an ok response, the fetch returns as `blocked_domains` exactly the
page's entries whose filtering status is `REQUEST_BLOCKED` or
`RESPONSE_BLOCKED`, in source order, each projected to
`{domain, blocked_at, filter_rule?, filter_id?}` (the spec-side recursive
description `specBlockedDomains`), and `total_queries` is the number of all
entries in the page. -/
theorem queryLog_filtering (resp : Response) (items : List QueryLogItem)
    (hok : resp.okb = true) :
    getQueryLogExecute resp items =
      .ok ⟨specBlockedDomains items, items.length⟩ := by
  simp [getQueryLogExecute, hok, filter_map_eq_specBlockedDomains]

/-- Witness for C6: the sample page keeps exactly its two blocked entries in
order and reports all four entries in `total_queries`. -/
theorem queryLog_filtering_witness :
    getQueryLogExecute ⟨200, "OK"⟩ samplePage =
      .ok ⟨[⟨"nflxvideo.net", "2024-01-01T00:00:00Z",
              some "||nflxvideo.net^", some "15"⟩,
            ⟨"cdn.example", "2024-01-01T00:00:02Z", none, none⟩], 4⟩ := by
  rw [queryLog_filtering ⟨200, "OK"⟩ samplePage (by decide)]
  rfl

/-! ## Claim theorems: whitelist mutator -/

/-- C5: with the server id configured and both transport responses ok, the
mutator succeeds and partitions its input exactly: `already_whitelisted` is
the input domains whose canonical rule is a member of the rules that were
read, in input order, and `rules_added` is the canonical rule of every other
input domain, in input order. -/
theorem unblock_partition (sid : String) (domains : List String)
    (dnsServer : DNSServerSettings) (getResp putResp : Response)
    (hg : getResp.okb = true) (hp : putResp.okb = true) :
    ∃ out,
      (unblockExecute (some sid) domains getResp dnsServer putResp).result =
          .ok out ∧
        out.already_whitelisted =
          domains.filter
            (fun d => dnsServer.user_rules_settings.rules.contains
              (whitelistRule d)) ∧
        out.rules_added =
          (domains.filter
              (fun d => !(dnsServer.user_rules_settings.rules.contains
                (whitelistRule d)))).map whitelistRule := by
  simp only [unblockExecute, hg, if_true, collectRules_eq]
  by_cases h0 :
      ((domains.filter
          (fun d => !(dnsServer.user_rules_settings.rules.contains
            (whitelistRule d)))).map whitelistRule).length = 0
  · rw [if_pos h0]
    refine ⟨_, rfl, rfl, ?_⟩
    rw [List.length_eq_zero] at h0
    exact h0.symm
  · rw [if_neg h0, if_pos hp]
    exact ⟨_, rfl, rfl, rfl⟩

/-- Witness for C5: rules `[@@||a.com^]` and input `["a.com", "b.com"]` split
into one already-whitelisted domain and one added rule. -/
theorem unblock_partition_witness :
    ∃ out,
      (unblockExecute (some "srv") ["a.com", "b.com"] ⟨200, "OK"⟩
            ⟨⟨true, ["@@||a.com^"], 1⟩⟩ ⟨200, "OK"⟩).result = .ok out ∧
        out.already_whitelisted =
          (["a.com", "b.com"].filter
            (fun d => (["@@||a.com^"] : List String).contains
              (whitelistRule d))) ∧
        out.rules_added =
          ((["a.com", "b.com"].filter
              (fun d => !((["@@||a.com^"] : List String).contains
                (whitelistRule d)))).map whitelistRule) :=
  unblock_partition "srv" ["a.com", "b.com"] ⟨⟨true, ["@@||a.com^"], 1⟩⟩
    ⟨200, "OK"⟩ ⟨200, "OK"⟩ (by decide) (by decide)

/-- C7: when every input domain's canonical rule is already a member of the
rules that were read, the mutator returns success with `rules_added = []`,
`already_whitelisted` listing all input domains in order, the
all-already-whitelisted message, and it issues no write, whatever response the
write endpoint would have given. -/
theorem unblock_short_circuit (sid : String) (domains : List String)
    (dnsServer : DNSServerSettings) (getResp putResp : Response)
    (hg : getResp.okb = true)
    (hall : ∀ d ∈ domains,
      dnsServer.user_rules_settings.rules.contains (whitelistRule d) = true) :
    (unblockExecute (some sid) domains getResp dnsServer putResp).result =
        .ok ⟨true,
          "All " ++ toString domains.length ++
            " domain(s) are already whitelisted",
          [], domains⟩ ∧
      (unblockExecute (some sid) domains getResp dnsServer putResp).putRequest
        = none :=
  unblock_all_present sid domains dnsServer getResp putResp hg hall

/-- Witness for C7: both input domains already whitelisted, no write issued. -/
theorem unblock_short_circuit_witness :
    (unblockExecute (some "srv") ["a.com", "b.com"] ⟨200, "OK"⟩
          ⟨⟨true, ["@@||a.com^", "@@||b.com^"], 2⟩⟩ ⟨500, "X"⟩).result =
        .ok ⟨true, "All " ++ toString (["a.com", "b.com"] : List String).length ++
            " domain(s) are already whitelisted", [], ["a.com", "b.com"]⟩ ∧
      (unblockExecute (some "srv") ["a.com", "b.com"] ⟨200, "OK"⟩
        ⟨⟨true, ["@@||a.com^", "@@||b.com^"], 2⟩⟩ ⟨500, "X"⟩).putRequest =
        none :=
  unblock_short_circuit "srv" ["a.com", "b.com"]
    ⟨⟨true, ["@@||a.com^", "@@||b.com^"], 2⟩⟩ ⟨200, "OK"⟩ ⟨500, "X"⟩
    (by decide) (by decide)

/-- C8: whenever the mutator issues its PUT, the body's rule list is exactly
the rules that were read, in their original order, followed by the canonical
rules of the not-yet-whitelisted input domains appended at the end, and the
body's enabled flag equals the flag that was read. -/
theorem unblock_put_frame (sid : String) (domains : List String)
    (dnsServer : DNSServerSettings) (getResp putResp : Response)
    (pb : PutBody)
    (h : (unblockExecute (some sid) domains getResp dnsServer putResp).putRequest
      = some pb) :
    pb.enabled = dnsServer.user_rules_settings.enabled ∧
      pb.rules = dnsServer.user_rules_settings.rules ++
        (domains.filter
            (fun d => !(dnsServer.user_rules_settings.rules.contains
              (whitelistRule d)))).map whitelistRule := by
  by_cases hg : getResp.okb = true
  · simp only [unblockExecute, hg, if_true, collectRules_eq] at h
    by_cases h0 :
        ((domains.filter
            (fun d => !(dnsServer.user_rules_settings.rules.contains
              (whitelistRule d)))).map whitelistRule).length = 0
    · rw [if_pos h0] at h
      exact absurd h (by simp)
    · rw [if_neg h0] at h
      by_cases hp : putResp.okb = true
      · rw [if_pos hp] at h
        cases h
        exact ⟨rfl, rfl⟩
      · rw [if_neg hp] at h
        cases h
        exact ⟨rfl, rfl⟩
  · simp [unblockExecute, hg] at h

/-- Witness for C8: a mixed call issues a PUT whose body echoes the read
enabled flag and appends the single new rule after the read rules. -/
theorem unblock_put_frame_witness :
    (⟨true, ["@@||a.com^", "@@||b.com^"]⟩ : PutBody).enabled =
        (⟨⟨true, ["@@||a.com^"], 1⟩⟩ : DNSServerSettings).user_rules_settings.enabled ∧
      (⟨true, ["@@||a.com^", "@@||b.com^"]⟩ : PutBody).rules =
        (⟨⟨true, ["@@||a.com^"], 1⟩⟩ :
            DNSServerSettings).user_rules_settings.rules ++
          ((["a.com", "b.com"].filter
              (fun d => !((⟨⟨true, ["@@||a.com^"], 1⟩⟩ :
                DNSServerSettings).user_rules_settings.rules.contains
                  (whitelistRule d)))).map whitelistRule) :=
  unblock_put_frame "srv" ["a.com", "b.com"] ⟨⟨true, ["@@||a.com^"], 1⟩⟩
    ⟨200, "OK"⟩ ⟨200, "OK"⟩ ⟨true, ["@@||a.com^", "@@||b.com^"]⟩ (by decide)

/-- C10: `unblock([])` with the server id configured and an ok configuration
read performs the read, issues no write, and returns success with empty
`rules_added` and `already_whitelisted` and the message reporting that all 0
domain(s) are already whitelisted. -/
theorem unblock_empty_input (sid : String) (dnsServer : DNSServerSettings)
    (getResp putResp : Response) (hg : getResp.okb = true) :
    (unblockExecute (some sid) [] getResp dnsServer putResp).result =
        .ok ⟨true, "All 0 domain(s) are already whitelisted", [], []⟩ ∧
      (unblockExecute (some sid) [] getResp dnsServer putResp).getIssued =
        true ∧
      (unblockExecute (some sid) [] getResp dnsServer putResp).putRequest =
        none := by
  simp [unblockExecute, hg, collectRules]
  rfl

/-- Witness for C10: the empty call on a sample configuration. -/
theorem unblock_empty_input_witness :
    (unblockExecute (some "srv") [] ⟨200, "OK"⟩ ⟨⟨true, ["||x^"], 1⟩⟩
          ⟨200, "OK"⟩).result =
        .ok ⟨true, "All 0 domain(s) are already whitelisted", [], []⟩ ∧
      (unblockExecute (some "srv") [] ⟨200, "OK"⟩ ⟨⟨true, ["||x^"], 1⟩⟩
          ⟨200, "OK"⟩).getIssued = true ∧
      (unblockExecute (some "srv") [] ⟨200, "OK"⟩ ⟨⟨true, ["||x^"], 1⟩⟩
          ⟨200, "OK"⟩).putRequest = none :=
  unblock_empty_input "srv" ⟨⟨true, ["||x^"], 1⟩⟩ ⟨200, "OK"⟩ ⟨200, "OK"⟩
    (by decide)

/-- C1 counterexample: with an empty current rules list,
`unblock(["a.com", "a.com"])` sends a write appending the same rule twice
(and reports it twice in `rules_added`) — the appended rules are not pairwise
distinct, refuting the claim for inputs that repeat a domain. -/
theorem unblock_dup_input_counterexample :
    (unblockExecute (some "srv") ["a.com", "a.com"] ⟨200, "OK"⟩
          ⟨⟨true, [], 0⟩⟩ ⟨200, "OK"⟩).putRequest =
        some ⟨true, ["@@||a.com^", "@@||a.com^"]⟩ ∧
      ((unblockExecute (some "srv") ["a.com", "a.com"] ⟨200, "OK"⟩
            ⟨⟨true, [], 0⟩⟩ ⟨200, "OK"⟩).result.toOption.map
          (fun out => out.rules_added)) =
        some ["@@||a.com^", "@@||a.com^"] ∧
      ¬ (["@@||a.com^", "@@||a.com^"] : List String).Nodup := by
  refine ⟨rfl, rfl, ?_⟩
  decide

/-- C1 amended: every appended rule is absent from the rules list that was
read, and when the input domains are pairwise distinct the appended rules are
pairwise distinct as well (a repeated not-yet-whitelisted input domain,
however, yields a repeated appended rule). -/
theorem unblock_no_self_duplicates (sid : String) (domains : List String)
    (dnsServer : DNSServerSettings) (getResp putResp : Response)
    (hg : getResp.okb = true) (hp : putResp.okb = true) :
    ∃ out,
      (unblockExecute (some sid) domains getResp dnsServer putResp).result =
          .ok out ∧
        (∀ r ∈ out.rules_added,
          dnsServer.user_rules_settings.rules.contains r = false) ∧
        (domains.Nodup → out.rules_added.Nodup) := by
  simp only [unblockExecute, hg, if_true, collectRules_eq]
  by_cases h0 :
      ((domains.filter
          (fun d => !(dnsServer.user_rules_settings.rules.contains
            (whitelistRule d)))).map whitelistRule).length = 0
  · rw [if_pos h0]
    refine ⟨_, rfl, ?_, ?_⟩
    · intro r hr
      simp at hr
    · intro _
      exact List.nodup_nil
  · rw [if_neg h0, if_pos hp]
    refine ⟨_, rfl, ?_, ?_⟩
    · intro r hr
      rcases List.mem_map.mp hr with ⟨d, hd, rfl⟩
      have hpred := (List.mem_filter.mp hd).2
      simpa using hpred
    · intro hnd
      exact (hnd.filter _).map whitelistRule_injective

/-- Witness for the amended C1: distinct inputs `["a.com", "b.com"]` against
rules `["@@||c.com^"]` produce appended rules absent from the read list and
pairwise distinct. -/
theorem unblock_no_self_duplicates_witness :
    ∃ out,
      (unblockExecute (some "srv") ["a.com", "b.com"] ⟨200, "OK"⟩
            ⟨⟨true, ["@@||c.com^"], 1⟩⟩ ⟨200, "OK"⟩).result = .ok out ∧
        (∀ r ∈ out.rules_added,
          (["@@||c.com^"] : List String).contains r = false) ∧
        ((["a.com", "b.com"] : List String).Nodup → out.rules_added.Nodup) :=
  unblock_no_self_duplicates "srv" ["a.com", "b.com"]
    ⟨⟨true, ["@@||c.com^"], 1⟩⟩ ⟨200, "OK"⟩ ⟨200, "OK"⟩ (by decide) (by decide)

/-- C4: after a successful `unblock(D)` — whether it wrote or
short-circuited — the provider-side rules contain the canonical rule for
every domain of `D`, and a second `unblock(D)` against that state succeeds
with `rules_added = []`, `already_whitelisted` listing every domain of `D`,
and issues no write. -/
theorem unblock_idempotent (sid : String) (domains : List String)
    (dnsServer : DNSServerSettings) (g1 p1 g2 p2 : Response)
    (hg1 : g1.okb = true) (hp1 : p1.okb = true) (hg2 : g2.okb = true) :
    (∃ out1,
      (unblockExecute (some sid) domains g1 dnsServer p1).result = .ok out1) ∧
      (∀ d ∈ domains,
        (settingsAfter dnsServer
              (unblockExecute (some sid) domains g1 dnsServer p1)
            ).user_rules_settings.rules.contains (whitelistRule d) = true) ∧
      (unblockExecute (some sid) domains g2
          (settingsAfter dnsServer
            (unblockExecute (some sid) domains g1 dnsServer p1)) p2).result =
        .ok ⟨true,
          "All " ++ toString domains.length ++
            " domain(s) are already whitelisted",
          [], domains⟩ ∧
      (unblockExecute (some sid) domains g2
          (settingsAfter dnsServer
            (unblockExecute (some sid) domains g1 dnsServer p1)) p2).putRequest
        = none := by
  by_cases h0 :
      ((domains.filter
          (fun d => !(dnsServer.user_rules_settings.rules.contains
            (whitelistRule d)))).map whitelistRule).length = 0
  · have hput :
        (unblockExecute (some sid) domains g1 dnsServer p1).putRequest =
          none := by
      simp only [unblockExecute, hg1, if_true, collectRules_eq]
      rw [if_pos h0]
    have hres : ∃ out1,
        (unblockExecute (some sid) domains g1 dnsServer p1).result =
          .ok out1 := by
      simp only [unblockExecute, hg1, if_true, collectRules_eq]
      rw [if_pos h0]
      exact ⟨_, rfl⟩
    have hafter :
        settingsAfter dnsServer
            (unblockExecute (some sid) domains g1 dnsServer p1) = dnsServer := by
      simp [settingsAfter, hput]
    have hempty2 :
        domains.filter
            (fun d => !(dnsServer.user_rules_settings.rules.contains
              (whitelistRule d))) = [] := by
      have := List.length_eq_zero.mp h0
      exact List.map_eq_nil_iff.mp this
    have hall : ∀ d ∈ domains,
        dnsServer.user_rules_settings.rules.contains (whitelistRule d) =
          true := by
      intro d hd
      have := List.filter_eq_nil_iff.mp hempty2 d hd
      simpa using this
    refine ⟨hres, ?_, ?_, ?_⟩
    · rw [hafter]
      exact hall
    · rw [hafter]
      exact (unblock_all_present sid domains dnsServer g2 p2 hg2 hall).1
    · rw [hafter]
      exact (unblock_all_present sid domains dnsServer g2 p2 hg2 hall).2
  · have hput :
        (unblockExecute (some sid) domains g1 dnsServer p1).putRequest =
          some ⟨dnsServer.user_rules_settings.enabled,
            dnsServer.user_rules_settings.rules ++
              (domains.filter
                  (fun d => !(dnsServer.user_rules_settings.rules.contains
                    (whitelistRule d)))).map whitelistRule⟩ := by
      simp only [unblockExecute, hg1, if_true, collectRules_eq]
      rw [if_neg h0, if_pos hp1]
    have hres : ∃ out1,
        (unblockExecute (some sid) domains g1 dnsServer p1).result =
          .ok out1 := by
      simp only [unblockExecute, hg1, if_true, collectRules_eq]
      rw [if_neg h0, if_pos hp1]
      exact ⟨_, rfl⟩
    have hafter :
        settingsAfter dnsServer
            (unblockExecute (some sid) domains g1 dnsServer p1) =
          ⟨⟨dnsServer.user_rules_settings.enabled,
            dnsServer.user_rules_settings.rules ++
              (domains.filter
                  (fun d => !(dnsServer.user_rules_settings.rules.contains
                    (whitelistRule d)))).map whitelistRule,
            (dnsServer.user_rules_settings.rules ++
              (domains.filter
                  (fun d => !(dnsServer.user_rules_settings.rules.contains
                    (whitelistRule d)))).map whitelistRule).length⟩⟩ := by
      simp [settingsAfter, hput]
    have hall : ∀ d ∈ domains,
        (dnsServer.user_rules_settings.rules ++
            (domains.filter
                (fun d => !(dnsServer.user_rules_settings.rules.contains
                  (whitelistRule d)))).map whitelistRule).contains
          (whitelistRule d) = true := by
      intro d hd
      apply List.elem_iff.mpr
      by_cases hc : whitelistRule d ∈ dnsServer.user_rules_settings.rules
      · exact List.mem_append_left _ hc
      · apply List.mem_append_right
        apply List.mem_map_of_mem whitelistRule
        apply List.mem_filter.mpr
        refine ⟨hd, ?_⟩
        simp [hc]
    refine ⟨hres, ?_, ?_, ?_⟩
    · rw [hafter]
      exact hall
    · rw [hafter]
      exact (unblock_all_present sid domains _ g2 p2 hg2 hall).1
    · rw [hafter]
      exact (unblock_all_present sid domains _ g2 p2 hg2 hall).2

/-- Witness for C4: adding `a.com` to an empty rule list, then calling again
with the written rules in place. -/
theorem unblock_idempotent_witness :
    (∃ out1,
      (unblockExecute (some "srv") ["a.com"] ⟨200, "OK"⟩ ⟨⟨true, [], 0⟩⟩
          ⟨200, "OK"⟩).result = .ok out1) ∧
      (∀ d ∈ (["a.com"] : List String),
        (settingsAfter ⟨⟨true, [], 0⟩⟩
              (unblockExecute (some "srv") ["a.com"] ⟨200, "OK"⟩ ⟨⟨true, [], 0⟩⟩
                ⟨200, "OK"⟩)).user_rules_settings.rules.contains
            (whitelistRule d) = true) ∧
      (unblockExecute (some "srv") ["a.com"] ⟨201, "Created"⟩
          (settingsAfter ⟨⟨true, [], 0⟩⟩
            (unblockExecute (some "srv") ["a.com"] ⟨200, "OK"⟩ ⟨⟨true, [], 0⟩⟩
              ⟨200, "OK"⟩)) ⟨200, "OK"⟩).result =
        .ok ⟨true,
          "All " ++ toString (["a.com"] : List String).length ++
            " domain(s) are already whitelisted",
          [], ["a.com"]⟩ ∧
      (unblockExecute (some "srv") ["a.com"] ⟨201, "Created"⟩
          (settingsAfter ⟨⟨true, [], 0⟩⟩
            (unblockExecute (some "srv") ["a.com"] ⟨200, "OK"⟩ ⟨⟨true, [], 0⟩⟩
              ⟨200, "OK"⟩)) ⟨200, "OK"⟩).putRequest = none :=
  unblock_idempotent "srv" ["a.com"] ⟨⟨true, [], 0⟩⟩ ⟨200, "OK"⟩ ⟨200, "OK"⟩
    ⟨201, "Created"⟩ ⟨200, "OK"⟩ (by decide) (by decide) (by decide)

end AdGuard
